import Mathlib

/-!
Verification of the password-strength core of the repository
(`password_checker/validator.py` and `password_checker/checker.py`).

Passwords are modelled as `List Char` (Python `str` is a sequence of Unicode
code points; Lean's `Char` is a Unicode scalar value).  Scores are modelled
as exact rationals (`ℚ`): every float literal in the source is an exact
decimal, and `round(x, 2)` is modelled as exact round-half-to-even to two
decimal places.

All definitions are translated from the Python source; doc comments cite
the file and function they embed.
-/

namespace PasswordChecker

/-- `validator.py`, `PasswordValidator.__init__`: the default minimum
length (`min_length = 8`); the checker constructs `PasswordValidator()`
with this default. -/
def min_length : Nat := 8

/-- Membership in the regex class `[A-Z]` (`uppercase_pattern`). -/
def is_upper_az (c : Char) : Bool := 'A' ≤ c && c ≤ 'Z'

/-- Membership in the regex class `[a-z]` (`lowercase_pattern`). -/
def is_lower_az (c : Char) : Bool := 'a' ≤ c && c ≤ 'z'

/-- The code-point ranges of Unicode general category Nd (decimal digit).
Python's `re` module interprets `\d` on `str` as this category (Unicode
15.0 table; `digit_pattern = re.compile(r'\d')` in `validator.py`). -/
def nd_ranges : List (Nat × Nat) :=
  [(0x0030, 0x0039), (0x0660, 0x0669), (0x06F0, 0x06F9), (0x07C0, 0x07C9),
   (0x0966, 0x096F), (0x09E6, 0x09EF), (0x0A66, 0x0A6F), (0x0AE6, 0x0AEF),
   (0x0B66, 0x0B6F), (0x0BE6, 0x0BEF), (0x0C66, 0x0C6F), (0x0CE6, 0x0CEF),
   (0x0D66, 0x0D6F), (0x0DE6, 0x0DEF), (0x0E50, 0x0E59), (0x0ED0, 0x0ED9),
   (0x0F20, 0x0F29), (0x1040, 0x1049), (0x1090, 0x1099), (0x17E0, 0x17E9),
   (0x1810, 0x1819), (0x1946, 0x194F), (0x19D0, 0x19D9), (0x1A80, 0x1A89),
   (0x1A90, 0x1A99), (0x1B50, 0x1B59), (0x1BB0, 0x1BB9), (0x1C40, 0x1C49),
   (0x1C50, 0x1C59), (0xA620, 0xA629), (0xA8D0, 0xA8D9), (0xA900, 0xA909),
   (0xA9D0, 0xA9D9), (0xA9F0, 0xA9F9), (0xAA50, 0xAA59), (0xABF0, 0xABF9),
   (0xFF10, 0xFF19), (0x104A0, 0x104A9), (0x10D30, 0x10D39),
   (0x11066, 0x1106F), (0x110F0, 0x110F9), (0x11136, 0x1113F),
   (0x111D0, 0x111D9), (0x112F0, 0x112F9), (0x11450, 0x11459),
   (0x114D0, 0x114D9), (0x11650, 0x11659), (0x116C0, 0x116C9),
   (0x11730, 0x11739), (0x118E0, 0x118E9), (0x11950, 0x11959),
   (0x11C50, 0x11C59), (0x11D50, 0x11D59), (0x11DA0, 0x11DA9),
   (0x11F50, 0x11F59), (0x16A60, 0x16A69), (0x16AC0, 0x16AC9),
   (0x16B50, 0x16B59), (0x1D7CE, 0x1D7FF), (0x1E140, 0x1E149),
   (0x1E2F0, 0x1E2F9), (0x1E4F0, 0x1E4F9), (0x1E950, 0x1E959),
   (0x1FBF0, 0x1FBF9)]

/-- Membership in Python's `\d` class: Unicode general category Nd. -/
def is_digit_nd (c : Char) : Bool :=
  nd_ranges.any (fun r => r.1 ≤ c.toNat && c.toNat ≤ r.2)

/-- The fixed special-character set of
`special_char_pattern = re.compile(r'[!@#$%^&*()_+\-=\[\]\x7b\x7d;:"\\|,.<>\/?]')`
in `validator.py` (28 characters; `\x7b`/`\x7d` stand for the braces). -/
def special_chars : List Char :=
  ['!', '@', '#', '$', '%', '^', '&', '*', '(', ')', '_', '+', '-', '=',
   '[', ']', '\x7b', '\x7d', ';', ':', '\"', '\\', '|', ',', '.', '<', '>',
   '/', '?']

/-- Membership in the special-character class. -/
def is_special (c : Char) : Bool := special_chars.contains c

/-- A character that belongs to at least one of the four character classes
checked by the validator (upper, lower, digit, special). -/
def in_any_class (c : Char) : Bool :=
  is_upper_az c || is_lower_az c || is_digit_nd c || is_special c

/-- `validator.py`, `validate_length`: `len(password) >= self.min_length`. -/
def validate_length (p : List Char) : Bool := min_length ≤ p.length

/-- `validator.py`, `validate_uppercase`:
`bool(self.uppercase_pattern.search(password))`. -/
def validate_uppercase (p : List Char) : Bool := p.any is_upper_az

/-- `validator.py`, `validate_lowercase`:
`bool(self.lowercase_pattern.search(password))`. -/
def validate_lowercase (p : List Char) : Bool := p.any is_lower_az

/-- `validator.py`, `validate_digit`:
`bool(self.digit_pattern.search(password))`. -/
def validate_digit (p : List Char) : Bool := p.any is_digit_nd

/-- `validator.py`, `validate_special_char`:
`bool(self.special_char_pattern.search(password))`. -/
def validate_special_char (p : List Char) : Bool := p.any is_special

/-- `validator.py`, `get_validation_errors`: one fixed message appended per
failing rule, in the order length, uppercase, lowercase, digit,
special_char (`min_length` is interpolated into the first message). -/
def get_validation_errors (p : List Char) : List String :=
  (if validate_length p then []
   else ["Password must be at least 8 characters long"]) ++
  (if validate_uppercase p then []
   else ["Password must contain at least one uppercase letter"]) ++
  (if validate_lowercase p then []
   else ["Password must contain at least one lowercase letter"]) ++
  (if validate_digit p then []
   else ["Password must contain at least one digit"]) ++
  (if validate_special_char p then []
   else ["Password must contain at least one special character"])

/-- `validator.py`, `is_valid`:
`len(self.get_validation_errors(password)) == 0`. -/
def is_valid (p : List Char) : Bool := (get_validation_errors p).length == 0

/-- `validator.py`, `get_validation_summary`: the Python dict is modelled
as an ordered association list (Python dicts preserve insertion order). -/
def get_validation_summary (p : List Char) : List (String × Bool) :=
  [("length", validate_length p),
   ("uppercase", validate_uppercase p),
   ("lowercase", validate_lowercase p),
   ("digit", validate_digit p),
   ("special_char", validate_special_char p)]

/-! ## `checker.py`, `PasswordStrengthChecker` -/

/-- `checker.py`, `__init__`: `self.length_weight = 0.3`. -/
def length_weight : ℚ := 3/10

/-- `checker.py`, `__init__`: `self.variety_weight = 0.4`. -/
def variety_weight : ℚ := 4/10

/-- `checker.py`, `__init__`: `self.complexity_weight = 0.3`. -/
def complexity_weight : ℚ := 3/10

/-- Search of `repeating_chars_pattern = re.compile(r'(.)\1\x7b2,\x7d')`:
a match is a character immediately repeated three or more times.  The
regex `.` does not match a newline (no `re.DOTALL`), so the repeated
character must not be `'\n'`; the search succeeds iff some position holds
three consecutive equal non-newline characters. -/
def repeating_chars_search : List Char → Bool
  | a :: b :: c :: rest =>
      (a != '\n' && a == b && b == c) || repeating_chars_search (b :: c :: rest)
  | _ => false

/-- The 32 fixed triplets of `sequential_chars_pattern` in `checker.py`,
`__init__`: the 24 consecutive alphabetic runs `abc` … `xyz` and the 8
consecutive digit runs `012` … `789`. -/
def sequential_triplets : List (List Char) :=
  [['a','b','c'], ['b','c','d'], ['c','d','e'], ['d','e','f'], ['e','f','g'],
   ['f','g','h'], ['g','h','i'], ['h','i','j'], ['i','j','k'], ['j','k','l'],
   ['k','l','m'], ['l','m','n'], ['m','n','o'], ['n','o','p'], ['o','p','q'],
   ['p','q','r'], ['q','r','s'], ['r','s','t'], ['s','t','u'], ['t','u','v'],
   ['u','v','w'], ['v','w','x'], ['w','x','y'], ['x','y','z'], ['0','1','2'],
   ['1','2','3'], ['2','3','4'], ['3','4','5'], ['4','5','6'], ['5','6','7'],
   ['6','7','8'], ['7','8','9']]

/-- Case folding performed by `re.IGNORECASE` matching against the ASCII
pattern characters of `sequential_chars_pattern`: ASCII `A`–`Z` fold to
lowercase; in addition Python's `re` folds U+212A (KELVIN SIGN) onto `k`,
U+017F (LATIN SMALL LETTER LONG S) onto `s`, and U+0130 / U+0131 (dotted
capital / dotless small I) onto `i`.  Other characters are unchanged
(their case classes do not meet `a`–`z` or `0`–`9`). -/
def fold_ic (c : Char) : Char :=
  if c.toNat = 0x212A then 'k'
  else if c.toNat = 0x017F then 's'
  else if c.toNat = 0x0130 || c.toNat = 0x0131 then 'i'
  else if 'A' ≤ c && c ≤ 'Z' then Char.ofNat (c.toNat + 32)
  else c

/-- Search of `sequential_chars_pattern` (case-insensitive): some window of
three consecutive characters folds onto one of the 32 fixed triplets. -/
def sequential_chars_search : List Char → Bool
  | a :: b :: c :: rest =>
      sequential_triplets.contains [fold_ic a, fold_ic b, fold_ic c]
        || sequential_chars_search (b :: c :: rest)
  | _ => false

/-- `checker.py`, `calculate_length_score`: the step function of
`len(password)`. -/
def calculate_length_score (p : List Char) : ℚ :=
  if p.length < 8 then 0
  else if p.length ≤ 10 then 3/10
  else if p.length ≤ 12 then 6/10
  else if p.length ≤ 16 then 8/10
  else 1

/-- `checker.py`, `calculate_variety_score`: `variety_count`, the number of
the four class predicates that hold. -/
def variety_count (p : List Char) : Nat :=
  (if validate_uppercase p then 1 else 0) +
  (if validate_lowercase p then 1 else 0) +
  (if validate_digit p then 1 else 0) +
  (if validate_special_char p then 1 else 0)

/-- `checker.py`, `calculate_variety_score`: `variety_count / 4.0`. -/
def calculate_variety_score (p : List Char) : ℚ := (variety_count p : ℚ) / 4

/-- `checker.py`, `calculate_complexity_score`: start at 1.0, apply the two
pattern penalties and the two diversity bonuses in source order, then
`max(0.0, min(1.0, score))`. -/
def calculate_complexity_score (p : List Char) : ℚ :=
  let score : ℚ := 1
  let score := if repeating_chars_search p then score - 3/10 else score
  let score := if sequential_chars_search p then score - 2/10 else score
  let score := if validate_uppercase p && validate_lowercase p
               then score + 1/10 else score
  let score := if validate_digit p && validate_special_char p
               then score + 1/10 else score
  max 0 (min 1 score)

/-- Round-half-to-even to an integer (the rounding of Python's `round`),
on exact rationals. -/
def round_half_even (q : ℚ) : ℤ :=
  let f := ⌊q⌋
  if q - f < 1/2 then f
  else if 1/2 < q - f then f + 1
  else if f % 2 = 0 then f else f + 1

/-- Python's `round(x, 2)`, modelled exactly on rationals. -/
def round2 (q : ℚ) : ℚ := (round_half_even (q * 100) : ℚ) / 100

/-- `checker.py`, `calculate_overall_score`: the weighted sum of the three
sub-scores, rounded to two decimal places. -/
def calculate_overall_score (p : List Char) : ℚ :=
  round2 (calculate_length_score p * length_weight +
          calculate_variety_score p * variety_weight +
          calculate_complexity_score p * complexity_weight)

/-- `checker.py`, `get_strength_category`. -/
def get_strength_category (score : ℚ) : String :=
  if score < 4/10 then "Weak"
  else if score < 7/10 then "Medium"
  else "Strong"

/-- The record returned by `checker.py`, `get_strength_details`. -/
structure StrengthDetails where
  length_score : ℚ
  variety_score : ℚ
  complexity_score : ℚ
  overall_score : ℚ
  category : String
  is_valid : Bool
  validation_errors : List String

/-- `checker.py`, `get_strength_details`. -/
def get_strength_details (p : List Char) : StrengthDetails :=
  { length_score := calculate_length_score p
    variety_score := calculate_variety_score p
    complexity_score := calculate_complexity_score p
    overall_score := calculate_overall_score p
    category := get_strength_category (calculate_overall_score p)
    is_valid := is_valid p
    validation_errors := get_validation_errors p }

/-- `checker.py`, `get_strength_recommendations`: one fixed advisory string
appended per triggered check, in source order. -/
def get_strength_recommendations (p : List Char) : List String :=
  (if p.length < 12 then ["Consider using a longer password (12+ characters)"]
   else []) ++
  (if validate_uppercase p then [] else ["Add uppercase letters"]) ++
  (if validate_lowercase p then [] else ["Add lowercase letters"]) ++
  (if validate_digit p then [] else ["Add numbers"]) ++
  (if validate_special_char p then [] else ["Add special characters"]) ++
  (if repeating_chars_search p then ["Avoid repeating characters"] else []) ++
  (if sequential_chars_search p then ["Avoid sequential characters"] else [])

/-! ## Auxiliary definitions for the claims -/

/-- The length-score table exactly as the spec states it (§4.2): `< 8 → 0.0`,
`8–10 → 0.3`, `11–12 → 0.6`, `13–16 → 0.8`, `> 16 → 1.0`.  This definition
follows the spec's words; it is compared with `calculate_length_score`,
which follows the source. -/
def spec_length_score (n : Nat) : ℚ :=
  if n < 8 then 0
  else if 8 ≤ n ∧ n ≤ 10 then 3/10
  else if 11 ≤ n ∧ n ≤ 12 then 6/10
  else if 13 ≤ n ∧ n ≤ 16 then 8/10
  else 1

/-- The scenario password `"short"`. -/
def short_pw : List Char := ['s', 'h', 'o', 'r', 't']

/-- The scenario password `"Tr0ub4dor&3XyZ"`. -/
def tr0_pw : List Char :=
  ['T', 'r', '0', 'u', 'b', '4', 'd', 'o', 'r', '&', '3', 'X', 'y', 'Z']

/-- Eight ARABIC-INDIC digits U+0660 … U+0667: Unicode decimal digits
(category Nd) that are not in `0`–`9`. -/
def arabic8 : List Char := (List.range 8).map (fun i => Char.ofNat (0x0660 + i))

/-- An 18-character password with lowercase letters, digits and special
characters but no uppercase letter, no triple repeat, and no sequential
triplet. -/
def strong_invalid_pw : List Char :=
  ['a', '1', '!', 'b', '2', '@', 'c', '3', '#',
   'd', '4', '$', 'e', '5', '%', 'f', '6', '^']

/-- A password with a triple repeat (`aaa`) and a sequential triplet
(`abc`), no uppercase letter, no digit, no special character. -/
def aaabc_pw : List Char := ['a', 'a', 'a', 'b', 'c']

/-! ## Helper lemmas -/

lemma round_half_even_intCast (n : ℤ) : round_half_even (n : ℚ) = n := by
  unfold round_half_even
  simp [Int.floor_intCast]

lemma round2_cent (n : ℤ) : round2 ((n : ℚ) / 100) = (n : ℚ) / 100 := by
  unfold round2
  rw [div_mul_cancel₀ _ (by norm_num : (100 : ℚ) ≠ 0), round_half_even_intCast]

lemma floor_le_round_half_even (q : ℚ) : ⌊q⌋ ≤ round_half_even q := by
  unfold round_half_even
  dsimp only
  split_ifs <;> omega

lemma le_round_half_even_of_le {n : ℤ} {q : ℚ} (h : (n : ℚ) ≤ q) :
    n ≤ round_half_even q :=
  le_trans (Int.le_floor.mpr h) (floor_le_round_half_even q)

lemma round_half_even_le_of_le {q : ℚ} {n : ℤ} (h : q ≤ (n : ℚ)) :
    round_half_even q ≤ n := by
  have hf : ⌊q⌋ ≤ n := by
    have := Int.floor_le_floor h
    simpa [Int.floor_intCast] using this
  have hq : (⌊q⌋ : ℚ) ≤ q := Int.floor_le q
  unfold round_half_even
  dsimp only
  split_ifs with h1 h2 h3
  · exact hf
  · -- `1/2 < q - ⌊q⌋`, so `⌊q⌋ < n`
    rcases eq_or_lt_of_le hf with he | hl
    · exfalso
      have : (⌊q⌋ : ℚ) = (n : ℚ) := by rw [he]
      linarith
    · omega
  · exact hf
  · rcases eq_or_lt_of_le hf with he | hl
    · exfalso
      have : (⌊q⌋ : ℚ) = (n : ℚ) := by rw [he]
      have h4 : q - ⌊q⌋ = 1/2 := le_antisymm (not_lt.mp h2) (not_lt.mp h1)
      linarith
    · omega

lemma round2_nonneg {q : ℚ} (h : 0 ≤ q) : 0 ≤ round2 q := by
  unfold round2
  have h0 : (0 : ℤ) ≤ round_half_even (q * 100) :=
    le_round_half_even_of_le (by norm_num; linarith)
  have : (0 : ℚ) ≤ (round_half_even (q * 100) : ℚ) := by exact_mod_cast h0
  linarith

lemma round2_le_one {q : ℚ} (h : q ≤ 1) : round2 q ≤ 1 := by
  unfold round2
  have h0 : round_half_even (q * 100) ≤ (100 : ℤ) :=
    round_half_even_le_of_le (by push_cast; linarith)
  have : (round_half_even (q * 100) : ℚ) ≤ 100 := by exact_mod_cast h0
  linarith

lemma le_round2_of_le {n : ℤ} {q : ℚ} (h : (n : ℚ) / 100 ≤ q) :
    (n : ℚ) / 100 ≤ round2 q := by
  unfold round2
  have h0 : n ≤ round_half_even (q * 100) :=
    le_round_half_even_of_le (by linarith)
  have : (n : ℚ) ≤ (round_half_even (q * 100) : ℚ) := by exact_mod_cast h0
  linarith

/-- The complexity score as a single additive formula (the sequential
penalty/bonus updates of the source, flattened). -/
lemma complexity_score_eq (p : List Char) :
    calculate_complexity_score p =
      max 0 (min 1
        ((1 : ℚ) - (if repeating_chars_search p then 3/10 else 0)
          - (if sequential_chars_search p then 2/10 else 0)
          + (if validate_uppercase p && validate_lowercase p then 1/10 else 0)
          + (if validate_digit p && validate_special_char p then 1/10 else 0))) := by
  unfold calculate_complexity_score
  split_ifs <;> norm_num

lemma length_score_bounds (p : List Char) :
    0 ≤ calculate_length_score p ∧ calculate_length_score p ≤ 1 := by
  unfold calculate_length_score
  split_ifs <;> norm_num

lemma variety_count_le_four (p : List Char) : variety_count p ≤ 4 := by
  unfold variety_count
  split_ifs <;> norm_num

lemma variety_score_bounds (p : List Char) :
    0 ≤ calculate_variety_score p ∧ calculate_variety_score p ≤ 1 := by
  unfold calculate_variety_score
  constructor
  · positivity
  · rw [div_le_one (by norm_num : (0 : ℚ) < 4)]
    exact_mod_cast variety_count_le_four p

lemma complexity_score_bounds (p : List Char) :
    1/2 ≤ calculate_complexity_score p ∧ calculate_complexity_score p ≤ 1 := by
  rw [complexity_score_eq]
  constructor
  · have hpre : (1 : ℚ)/2 ≤
        ((1 : ℚ) - (if repeating_chars_search p then 3/10 else 0)
          - (if sequential_chars_search p then 2/10 else 0)
          + (if validate_uppercase p && validate_lowercase p then 1/10 else 0)
          + (if validate_digit p && validate_special_char p then 1/10 else 0)) := by
      split_ifs <;> norm_num
    exact le_trans (le_min (by norm_num) hpre) (le_max_right 0 _)
  · exact max_le (by norm_num) (min_le_left 1 _)

lemma overall_pre_bounds (p : List Char) :
    0 ≤ calculate_length_score p * length_weight +
        calculate_variety_score p * variety_weight +
        calculate_complexity_score p * complexity_weight ∧
    calculate_length_score p * length_weight +
        calculate_variety_score p * variety_weight +
        calculate_complexity_score p * complexity_weight ≤ 1 := by
  obtain ⟨hl0, hl1⟩ := length_score_bounds p
  obtain ⟨hv0, hv1⟩ := variety_score_bounds p
  obtain ⟨hc0, hc1⟩ := complexity_score_bounds p
  unfold length_weight variety_weight complexity_weight
  constructor <;> nlinarith

lemma overall_score_bounds (p : List Char) :
    0 ≤ calculate_overall_score p ∧ calculate_overall_score p ≤ 1 := by
  obtain ⟨h0, h1⟩ := overall_pre_bounds p
  exact ⟨round2_nonneg h0, round2_le_one h1⟩

lemma category_weak_iff (s : ℚ) :
    get_strength_category s = "Weak" ↔ s < 4/10 := by
  unfold get_strength_category
  split_ifs with h1 h2 <;> simp [h1]

lemma category_medium_iff (s : ℚ) :
    get_strength_category s = "Medium" ↔ 4/10 ≤ s ∧ s < 7/10 := by
  unfold get_strength_category
  split_ifs with h1 h2
  · simp [show ¬(4/10 ≤ s) from not_le.mpr h1]
  · simp [not_lt.mp h1, h2]
  · simp [h2]

lemma category_strong_iff (s : ℚ) :
    get_strength_category s = "Strong" ↔ 7/10 ≤ s := by
  unfold get_strength_category
  split_ifs with h1 h2
  · simp only [String.reduceEq, false_iff]
    intro h
    linarith
  · simp only [String.reduceEq, false_iff]
    intro h
    linarith
  · simp [not_lt.mp h2]

lemma short_pw_overall : calculate_overall_score short_pw = 4/10 := by
  have hls : calculate_length_score short_pw = 0 := by
    norm_num [calculate_length_score, short_pw]
  have hvc : variety_count short_pw = 1 := by decide
  have hvs : calculate_variety_score short_pw = 1/4 := by
    rw [calculate_variety_score, hvc]; norm_num
  have hrep : repeating_chars_search short_pw = false := by decide
  have hseq : sequential_chars_search short_pw = false := by decide
  have hup : validate_uppercase short_pw = false := by decide
  have hdig : validate_digit short_pw = false := by decide
  have hcs : calculate_complexity_score short_pw = 1 := by
    rw [complexity_score_eq, hrep, hseq, hup, hdig]
    norm_num
  unfold calculate_overall_score
  rw [hls, hvs, hcs]
  unfold length_weight variety_weight complexity_weight
  have h40 : (0:ℚ) * (3/10) + (1/4) * (4/10) + 1 * (3/10) = ((40:ℤ):ℚ)/100 := by
    norm_num
  rw [h40, round2_cent]
  norm_num

lemma tr0_pw_overall : calculate_overall_score tr0_pw = 94/100 := by
  have hls : calculate_length_score tr0_pw = 8/10 := by
    norm_num [calculate_length_score, tr0_pw]
  have hvc : variety_count tr0_pw = 4 := by decide
  have hvs : calculate_variety_score tr0_pw = 1 := by
    rw [calculate_variety_score, hvc]; norm_num
  have hcs : calculate_complexity_score tr0_pw = 1 := by
    have hrep : repeating_chars_search tr0_pw = false := by decide
    have hseq : sequential_chars_search tr0_pw = true := by decide
    have hup : validate_uppercase tr0_pw = true := by decide
    have hlow : validate_lowercase tr0_pw = true := by decide
    have hdig : validate_digit tr0_pw = true := by decide
    have hsp : validate_special_char tr0_pw = true := by decide
    rw [complexity_score_eq, hrep, hseq, hup, hlow, hdig, hsp]
    norm_num
  unfold calculate_overall_score
  rw [hls, hvs, hcs]
  unfold length_weight variety_weight complexity_weight
  have h94 : (8:ℚ)/10 * (3/10) + 1 * (4/10) + 1 * (3/10) = ((94:ℤ):ℚ)/100 := by
    norm_num
  rw [h94, round2_cent]
  norm_num

lemma strong_invalid_pw_overall :
    calculate_overall_score strong_invalid_pw = 9/10 := by
  have hls : calculate_length_score strong_invalid_pw = 1 := by
    norm_num [calculate_length_score, strong_invalid_pw]
  have hvc : variety_count strong_invalid_pw = 3 := by decide
  have hvs : calculate_variety_score strong_invalid_pw = 3/4 := by
    rw [calculate_variety_score, hvc]; norm_num
  have hcs : calculate_complexity_score strong_invalid_pw = 1 := by
    have hrep : repeating_chars_search strong_invalid_pw = false := by decide
    have hseq : sequential_chars_search strong_invalid_pw = false := by decide
    have hup : validate_uppercase strong_invalid_pw = false := by decide
    have hdig : validate_digit strong_invalid_pw = true := by decide
    have hsp : validate_special_char strong_invalid_pw = true := by decide
    rw [complexity_score_eq, hrep, hseq, hup, hdig, hsp]
    norm_num
  unfold calculate_overall_score
  rw [hls, hvs, hcs]
  unfold length_weight variety_weight complexity_weight
  have h90 : (1:ℚ) * (3/10) + 3/4 * (4/10) + 1 * (3/10) = ((90:ℤ):ℚ)/100 := by
    norm_num
  rw [h90, round2_cent]
  norm_num

/-! ## Claims -/

/-- C1 (counterexample): for the input `"short"` the overall score is
exactly 0.4, and `get_strength_category 0.4` is `"Medium"`, not `"Weak"` as
the claim states (0.4 is not `< 0.4`). -/
theorem c1_short_category_counterexample :
    get_strength_category (calculate_overall_score short_pw) = "Medium" ∧
    get_strength_category (calculate_overall_score short_pw) ≠ "Weak" := by
  rw [short_pw_overall]
  norm_num [get_strength_category]
  decide

/-- C1 (amended): for the input `"short"` (5 characters, all lowercase),
the evaluation yields length_score 0.0, variety_score 0.25, a
`get_validation_errors` list with exactly 4 entries (length, uppercase,
digit, special_char failing), and strength category `Medium`. -/
theorem c1_short_scenario :
    calculate_length_score short_pw = 0 ∧
    calculate_variety_score short_pw = 1/4 ∧
    get_validation_errors short_pw =
      ["Password must be at least 8 characters long",
       "Password must contain at least one uppercase letter",
       "Password must contain at least one digit",
       "Password must contain at least one special character"] ∧
    (get_validation_errors short_pw).length = 4 ∧
    get_strength_category (calculate_overall_score short_pw) = "Medium" := by
  refine ⟨?_, ?_, by decide, by decide, ?_⟩
  · norm_num [calculate_length_score, short_pw]
  · have hvc : variety_count short_pw = 1 := by decide
    rw [calculate_variety_score, hvc]; norm_num
  · rw [short_pw_overall]
    norm_num [get_strength_category]

/-- C2 (counterexample): the eight ARABIC-INDIC digits U+0660 … U+0667 are
Unicode decimal digits outside `0`–`9`; `validate_digit` accepts them
(Python's `\d` is Unicode-aware), and they also count toward the length
predicate — refuting both the `0`–`9`-only reading of `validate_digit` and
"counts toward none of the five predicates". -/
theorem c2_unicode_digit_counterexample :
    validate_digit arabic8 = true ∧
    arabic8.all (fun c => !('0' ≤ c && c ≤ '9')) = true ∧
    validate_length arabic8 = true := by
  refine ⟨by decide, by decide, by decide⟩

/-- C2 (amended): `validate_digit p` is true iff `p` contains at least one
Unicode decimal digit (category Nd, which includes `0`–`9` and e.g. the
ARABIC-INDIC digits); a password whose characters all lie outside the four
character classes satisfies none of the four class predicates, while the
length predicate counts every character regardless of class. -/
theorem c2_digit_nd (p : List Char) :
    (validate_digit p = true ↔ ∃ c ∈ p, is_digit_nd c = true) ∧
    ((∀ c ∈ p, in_any_class c = false) →
      validate_uppercase p = false ∧ validate_lowercase p = false ∧
      validate_digit p = false ∧ validate_special_char p = false) ∧
    validate_length p = decide (min_length ≤ p.length) := by
  refine ⟨by simp [validate_digit, List.any_eq_true], ?_, rfl⟩
  intro h
  have hall : ∀ c ∈ p, is_upper_az c = false ∧ is_lower_az c = false ∧
      is_digit_nd c = false ∧ is_special c = false := by
    intro c hc
    have := h c hc
    simp only [in_any_class, Bool.or_eq_false_iff] at this
    exact ⟨this.1.1.1, this.1.1.2, this.1.2, this.2⟩
  refine ⟨?_, ?_, ?_, ?_⟩ <;>
    simp only [validate_uppercase, validate_lowercase, validate_digit,
      validate_special_char, List.any_eq_false] <;>
    intro c hc <;> simp [(hall c hc).1, (hall c hc).2.1, (hall c hc).2.2.1,
      (hall c hc).2.2.2]

/-- Witness for C2 (amended): a single-space password lies outside every
character class and fails all four class predicates. -/
theorem c2_digit_nd_witness :
    validate_uppercase [' '] = false ∧ validate_lowercase [' '] = false ∧
    validate_digit [' '] = false ∧ validate_special_char [' '] = false :=
  (c2_digit_nd [' ']).2.1 (by decide)

/-- C3: for every input, `calculate_complexity_score` equals 1.0 minus 0.3
if the repeating pattern matches, minus 0.2 if the sequential pattern
matches, plus 0.1 for the mixed-case bonus, plus 0.1 for the
digit-and-special bonus, clamped to `[0, 1]`; in particular a password with
both penalties and no bonuses scores exactly 0.5. -/
theorem c3_complexity_formula (p : List Char) :
    calculate_complexity_score p =
      max 0 (min 1
        ((1 : ℚ) - (if repeating_chars_search p then 3/10 else 0)
          - (if sequential_chars_search p then 2/10 else 0)
          + (if validate_uppercase p && validate_lowercase p then 1/10 else 0)
          + (if validate_digit p && validate_special_char p then 1/10 else 0))) ∧
    (repeating_chars_search p = true → sequential_chars_search p = true →
      (validate_uppercase p && validate_lowercase p) = false →
      (validate_digit p && validate_special_char p) = false →
      calculate_complexity_score p = 1/2) := by
  refine ⟨complexity_score_eq p, ?_⟩
  intro h1 h2 h3 h4
  rw [complexity_score_eq, h1, h2, h3, h4]
  norm_num

/-- Witness for C3: `"aaabc"` has the triple repeat `aaa` and the
sequential triplet `abc`, no uppercase letter, no digit and no special
character, and scores exactly 0.5. -/
theorem c3_complexity_formula_witness :
    calculate_complexity_score aaabc_pw = 1/2 :=
  (c3_complexity_formula aaabc_pw).2 (by decide) (by decide) (by decide)
    (by decide)

/-- C4: for every input, the overall score lies in `[0, 1]`, equals the
weighted sum of the three sub-scores rounded to two decimal places, and
the category of the overall score is `Weak` iff it is below 0.4, `Medium`
iff it is in `[0.4, 0.7)`, and `Strong` iff it is at least 0.7. -/
theorem c4_overall_bounds_category (p : List Char) :
    0 ≤ calculate_overall_score p ∧ calculate_overall_score p ≤ 1 ∧
    calculate_overall_score p =
      round2 (calculate_length_score p * length_weight +
              calculate_variety_score p * variety_weight +
              calculate_complexity_score p * complexity_weight) ∧
    (get_strength_category (calculate_overall_score p) = "Weak" ↔
      calculate_overall_score p < 4/10) ∧
    (get_strength_category (calculate_overall_score p) = "Medium" ↔
      4/10 ≤ calculate_overall_score p ∧ calculate_overall_score p < 7/10) ∧
    (get_strength_category (calculate_overall_score p) = "Strong" ↔
      7/10 ≤ calculate_overall_score p) := by
  obtain ⟨h0, h1⟩ := overall_score_bounds p
  exact ⟨h0, h1, rfl, category_weak_iff _, category_medium_iff _,
    category_strong_iff _⟩

/-- C5: for the input `"Tr0ub4dor&3XyZ"` (14 characters) the evaluation
yields length_score 0.8, variety_score 1.0, complexity_score 1.0, overall
score 0.94 and category `Strong`. -/
theorem c5_tr0_scenario :
    calculate_length_score tr0_pw = 8/10 ∧
    calculate_variety_score tr0_pw = 1 ∧
    calculate_complexity_score tr0_pw = 1 ∧
    calculate_overall_score tr0_pw = 94/100 ∧
    get_strength_category (calculate_overall_score tr0_pw) = "Strong" := by
  refine ⟨?_, ?_, ?_, tr0_pw_overall, ?_⟩
  · norm_num [calculate_length_score, tr0_pw]
  · have hvc : variety_count tr0_pw = 4 := by decide
    rw [calculate_variety_score, hvc]; norm_num
  · have hrep : repeating_chars_search tr0_pw = false := by decide
    have hseq : sequential_chars_search tr0_pw = true := by decide
    have hup : validate_uppercase tr0_pw = true := by decide
    have hlow : validate_lowercase tr0_pw = true := by decide
    have hdig : validate_digit tr0_pw = true := by decide
    have hsp : validate_special_char tr0_pw = true := by decide
    rw [complexity_score_eq, hrep, hseq, hup, hlow, hdig, hsp]
    norm_num
  · rw [tr0_pw_overall]
    norm_num [get_strength_category]

/-- C6: `calculate_length_score` agrees, on every input, with the step
table of the spec: `< 8 → 0.0`, `8–10 → 0.3`, `11–12 → 0.6`,
`13–16 → 0.8`, `> 16 → 1.0`. -/
theorem c6_length_score_table (p : List Char) :
    calculate_length_score p = spec_length_score p.length := by
  unfold calculate_length_score spec_length_score
  split_ifs <;> first | rfl | omega

/-- C7: for every input, the validation summary has exactly the five
entries length, uppercase, lowercase, digit, special_char in this order;
the error list carries one fixed diagnostic string per false summary entry
(each diagnostic appears iff its rule fails, the list is a sublist of the
five fixed messages in rule order, and its length is the number of false
entries); and `is_valid` holds iff the error list is empty. -/
theorem c7_summary_errors_valid (p : List Char) :
    (get_validation_summary p).length = 5 ∧
    (get_validation_summary p).map Prod.fst =
      ["length", "uppercase", "lowercase", "digit", "special_char"] ∧
    (get_validation_errors p).length =
      ((get_validation_summary p).map Prod.snd).count false ∧
    ("Password must be at least 8 characters long" ∈
        get_validation_errors p ↔ validate_length p = false) ∧
    ("Password must contain at least one uppercase letter" ∈
        get_validation_errors p ↔ validate_uppercase p = false) ∧
    ("Password must contain at least one lowercase letter" ∈
        get_validation_errors p ↔ validate_lowercase p = false) ∧
    ("Password must contain at least one digit" ∈
        get_validation_errors p ↔ validate_digit p = false) ∧
    ("Password must contain at least one special character" ∈
        get_validation_errors p ↔ validate_special_char p = false) ∧
    (get_validation_errors p).Sublist
      ["Password must be at least 8 characters long",
       "Password must contain at least one uppercase letter",
       "Password must contain at least one lowercase letter",
       "Password must contain at least one digit",
       "Password must contain at least one special character"] ∧
    (is_valid p = true ↔ get_validation_errors p = []) := by
  have hvalid : is_valid p = true ↔ get_validation_errors p = [] := by
    simp [is_valid, List.length_eq_zero]
  cases h1 : validate_length p <;> cases h2 : validate_uppercase p <;>
    cases h3 : validate_lowercase p <;> cases h4 : validate_digit p <;>
    cases h5 : validate_special_char p <;>
    refine ⟨rfl, rfl, ?_, ?_, ?_, ?_, ?_, ?_, ?_, hvalid⟩ <;>
    simp [get_validation_errors, get_validation_summary, h1, h2, h3, h4, h5,
      List.count_cons]
  all_goals decide

/-- C8: `get_strength_recommendations` appends one fixed advisory per
triggered check; the result has one entry per triggered condition, each
advisory appears iff its condition holds, the advisories appear in the
fixed check order (the result is a sublist of the fixed seven-message
list), and the result is empty iff none of the seven conditions holds. -/
theorem c8_recommendations (p : List Char) :
    (get_strength_recommendations p).length =
      ((if p.length < 12 then 1 else 0) +
       (if validate_uppercase p then 0 else 1) +
       (if validate_lowercase p then 0 else 1) +
       (if validate_digit p then 0 else 1) +
       (if validate_special_char p then 0 else 1) +
       (if repeating_chars_search p then 1 else 0) +
       (if sequential_chars_search p then 1 else 0)) ∧
    ("Consider using a longer password (12+ characters)" ∈
        get_strength_recommendations p ↔ p.length < 12) ∧
    ("Add uppercase letters" ∈ get_strength_recommendations p ↔
      validate_uppercase p = false) ∧
    ("Add lowercase letters" ∈ get_strength_recommendations p ↔
      validate_lowercase p = false) ∧
    ("Add numbers" ∈ get_strength_recommendations p ↔
      validate_digit p = false) ∧
    ("Add special characters" ∈ get_strength_recommendations p ↔
      validate_special_char p = false) ∧
    ("Avoid repeating characters" ∈ get_strength_recommendations p ↔
      repeating_chars_search p = true) ∧
    ("Avoid sequential characters" ∈ get_strength_recommendations p ↔
      sequential_chars_search p = true) ∧
    (get_strength_recommendations p).Sublist
      ["Consider using a longer password (12+ characters)",
       "Add uppercase letters", "Add lowercase letters", "Add numbers",
       "Add special characters", "Avoid repeating characters",
       "Avoid sequential characters"] ∧
    (get_strength_recommendations p = [] ↔
      ¬(p.length < 12) ∧ validate_uppercase p = true ∧
      validate_lowercase p = true ∧ validate_digit p = true ∧
      validate_special_char p = true ∧ repeating_chars_search p = false ∧
      sequential_chars_search p = false) := by
  by_cases h0 : p.length < 12 <;> cases h1 : validate_uppercase p <;>
    cases h2 : validate_lowercase p <;> cases h3 : validate_digit p <;>
    cases h4 : validate_special_char p <;> cases h5 : repeating_chars_search p <;>
    cases h6 : sequential_chars_search p <;>
    simp [get_strength_recommendations, h0, h1, h2, h3, h4, h5, h6] <;> decide

/-- C9: for every input, the complexity score lies in `[0.5, 1]` — the
lower clamp of `max(0.0, ...)` never binds — and consequently the overall
score is at least 0.15 and never 0. -/
theorem c9_complexity_lower_bound (p : List Char) :
    1/2 ≤ calculate_complexity_score p ∧ calculate_complexity_score p ≤ 1 ∧
    3/20 ≤ calculate_overall_score p ∧ calculate_overall_score p ≠ 0 := by
  obtain ⟨hc0, hc1⟩ := complexity_score_bounds p
  obtain ⟨hl0, _⟩ := length_score_bounds p
  obtain ⟨hv0, _⟩ := variety_score_bounds p
  have hsum : ((15 : ℤ) : ℚ) / 100 ≤
      calculate_length_score p * length_weight +
      calculate_variety_score p * variety_weight +
      calculate_complexity_score p * complexity_weight := by
    unfold length_weight variety_weight complexity_weight
    nlinarith
  have hov : (3 : ℚ)/20 ≤ calculate_overall_score p := by
    have := le_round2_of_le hsum
    unfold calculate_overall_score
    push_cast at this
    linarith
  exact ⟨hc0, hc1, hov, by intro h; rw [h] at hov; linarith⟩

/-- C10: there is an input (18 characters of lowercase letters, digits and
special characters, with no uppercase letter) whose strength details
report `is_valid = false` with a non-empty error list and yet category
`Strong`: rule-validity and the strength category are independent
outputs. -/
theorem c10_strong_but_invalid :
    ∃ p : List Char,
      (get_strength_details p).is_valid = false ∧
      (get_strength_details p).validation_errors ≠ [] ∧
      (get_strength_details p).category = "Strong" := by
  refine ⟨strong_invalid_pw, by decide, by decide, ?_⟩
  show get_strength_category (calculate_overall_score strong_invalid_pw) =
    "Strong"
  rw [strong_invalid_pw_overall]
  norm_num [get_strength_category]

end PasswordChecker
